import Mathlib

/-!
Shallow embedding of the GovProp OCR microservice (`server.js`, CommonJS
variant): an Express app with

* `GET /` and `GET /healthz` — static health descriptor;
* `POST /parse` — JSON `{file_url}`: fetch the URL, extract PDF text;
* `POST /api/ocr` — multipart upload: PDF text extraction or image OCR
  depending on the declared content type;
* an optional API-key guard (`verifyKey`, env `OCR_API_KEY`);
* a multer upload-size limit of `10 * 1024 * 1024` bytes;
* a trailing multer error handler mapping `LIMIT_FILE_SIZE` to 400.

External collaborators (`fetch`, `pdfParse`, `Tesseract.recognize`) are
opaque: each handler receives the collaborator outcomes as `Except` values
and additionally returns the list of collaborators it actually invoked, in
order, so that "collaborator is not invoked" is a statement about that
trace.
-/

/-- JSON values as far as this service's response bodies need them:
strings, booleans, and flat-or-nested objects with ordered fields. -/
inductive Json where
  | str (s : String)
  | bool (b : Bool)
  | obj (fields : List (String × Json))

/-- An HTTP response: status code plus JSON body (Express `res.status(s).json(b)`;
`res.json(b)` alone is status 200). -/
structure Response where
  status : Nat
  body : Json

/-- Build a response whose body is a flat JSON object. -/
def jsonResp (status : Nat) (fields : List (String × Json)) : Response :=
  ⟨status, Json.obj fields⟩

/-- Which external collaborator a handler invoked. -/
inductive Eff where
  | fetchCall
  | pdfCall
  | ocrCall
deriving DecidableEq

/-- The part of a `node-fetch` response the `/parse` handler inspects. -/
structure FetchResp where
  status : Nat

/-- `node-fetch`'s `r.ok`: status in the 2xx range. -/
def FetchResp.isOk (r : FetchResp) : Bool :=
  decide (200 ≤ r.status ∧ r.status < 300)

/-- Outcome of `await fetch(file_url)`: a response, or a thrown network
error (rejected promise). -/
abbrev FetchOutcome := Except Unit FetchResp

/-- Outcome of `await pdfParse(buf)` / `await Tesseract.recognize(buf)`:
either a thrown error carrying its `.message`, or a result whose `text`
field may be absent (`data?.text` / `result?.data?.text`). -/
abbrev ExtractOutcome := Except String (Option String)

/-- JS `m.startsWith(pre)`: character-level prefix test. -/
def startsWithStr (m pre : String) : Bool :=
  pre.data.isPrefixOf m.data

/-- JS `String.prototype.trim`: drop leading and trailing whitespace. -/
def jsTrim (s : String) : String :=
  String.mk (((s.data.dropWhile Char.isWhitespace).reverse.dropWhile
    Char.isWhitespace).reverse)

/-- JS `(t || "").trim()` applied to a possibly-absent string field:
an absent or empty text yields `""`, otherwise leading/trailing
whitespace is removed. -/
def trimmedText (t : Option String) : String :=
  jsTrim (t.getD "")

/-- JS falsiness of the destructured `file_url` value: absent
(`undefined`) or the empty string. -/
def fileUrlMissing : Option String → Bool
  | none => true
  | some u => u.isEmpty

/-- The `POST /parse` handler body (inside its `try`/`catch`), given the
destructured `file_url`, the fetch outcome and the PDF-extraction
outcome. Returns the response together with the trace of collaborators
invoked. -/
def parseHandler (fileUrl : Option String) (fetchRes : FetchOutcome)
    (pdfRes : ExtractOutcome) : Response × List Eff :=
  if fileUrlMissing fileUrl then
    (jsonResp 400 [("error", Json.str "Missing file_url")], [])
  else
    match fetchRes with
    | Except.error _ =>
        (jsonResp 500 [("error", Json.str "Failed to parse document")], [Eff.fetchCall])
    | Except.ok r =>
        if r.isOk then
          match pdfRes with
          | Except.error _ =>
              (jsonResp 500 [("error", Json.str "Failed to parse document")],
               [Eff.fetchCall, Eff.pdfCall])
          | Except.ok t =>
              (jsonResp 200 [("extracted_text", Json.str (trimmedText t))],
               [Eff.fetchCall, Eff.pdfCall])
        else
          (jsonResp 502
            [("error", Json.str ("Failed to fetch PDF (" ++ toString r.status ++ ")"))],
           [Eff.fetchCall])

/-- The uploaded file as the `/api/ocr` handler sees it (`req.file`):
its declared content type (`mimetype`). The raw buffer is only passed on
to the opaque collaborators. -/
structure UploadedFile where
  mimetype : String

/-- The `POST /api/ocr` handler body (inside its `try`/`catch`), given
`req.file` (absent when no `file` field was uploaded) and the two
collaborator outcomes. Returns the response and the collaborator trace. -/
def ocrHandler (file : Option UploadedFile) (pdfRes ocrRes : ExtractOutcome) :
    Response × List Eff :=
  match file with
  | none => (jsonResp 400 [("error", Json.str "No file uploaded")], [])
  | some f =>
      if f.mimetype = "application/pdf" then
        match pdfRes with
        | Except.error m =>
            (jsonResp 500 [("error", Json.str "Failed to process file"),
                           ("message", Json.str m)], [Eff.pdfCall])
        | Except.ok t =>
            (jsonResp 200 [("success", Json.bool true),
                           ("text", Json.str (trimmedText t)),
                           ("fileType", Json.str f.mimetype)], [Eff.pdfCall])
      else if startsWithStr f.mimetype "image/" then
        match ocrRes with
        | Except.error m =>
            (jsonResp 500 [("error", Json.str "Failed to process file"),
                           ("message", Json.str m)], [Eff.ocrCall])
        | Except.ok t =>
            (jsonResp 200 [("success", Json.bool true),
                           ("text", Json.str (trimmedText t)),
                           ("fileType", Json.str f.mimetype)], [Eff.ocrCall])
      else
        (jsonResp 400
          [("error", Json.str "Unsupported file type. Upload a PDF or image.")], [])

/-- The `verifyKey` middleware: `cfgKey` is `process.env.OCR_API_KEY`
(`none` when unset), `header` is `req.headers["x-api-key"]` (`none` when
absent). `none` result means `next()` (pass); `some r` means the guard
answered with `r`. A configured key that is the empty string is falsy in
JS (`if (!cfgKey) return next()`), so the guard is disabled then too. -/
def verifyKey (cfgKey header : Option String) : Option Response :=
  match cfgKey with
  | none => none
  | some k =>
      if k.isEmpty then none
      else
        match header with
        | some h => if h = k then none else some (jsonResp 401 [("error", Json.str "Unauthorized")])
        | none => some (jsonResp 401 [("error", Json.str "Unauthorized")])

/-- Multer's configured upload limit: `MAX_FILE_SIZE = 10 * 1024 * 1024`. -/
def MAX_FILE_SIZE : Nat := 10 * 1024 * 1024

/-- A raw multipart upload before multer processes it: declared content
type and byte size. -/
structure UploadReq where
  mimetype : String
  size : Nat

/-- The static body served by `app.get(["/", "/healthz"], ...)`. -/
def healthFields : List (String × Json) :=
  [("ok", Json.bool true),
   ("service", Json.str "GovProp OCR"),
   ("endpoints", Json.obj
      [("parseUrl", Json.str "POST /parse"),
       ("ocrUpload", Json.str "POST /api/ocr"),
       ("health", Json.str "GET /healthz")])]

/-- An inbound HTTP request to one of the service's routes. For the POST
routes, `apiKeyHeader` is the `x-api-key` header value. -/
inductive Request where
  | getRoot
  | getHealthz
  | postParse (apiKeyHeader : Option String) (fileUrl : Option String)
  | postOcr (apiKeyHeader : Option String) (upload : Option UploadReq)

/-- Collaborator outcomes for one request ("the world"): what `fetch`,
`pdfParse` and `Tesseract.recognize` would return if invoked. -/
structure World where
  fetch : FetchOutcome
  pdf : ExtractOutcome
  ocr : ExtractOutcome

/-- The whole Express app: route dispatch, the health handler, the
`verifyKey` guard on both POST routes, multer's size check (which runs
after `verifyKey` and before the `/api/ocr` handler, its
`LIMIT_FILE_SIZE` error mapped to 400 by the trailing error-handling
middleware), and the two handlers. -/
def app (cfgKey : Option String) (req : Request) (w : World) :
    Response × List Eff :=
  match req with
  | Request.getRoot => (jsonResp 200 healthFields, [])
  | Request.getHealthz => (jsonResp 200 healthFields, [])
  | Request.postParse hdr fileUrl =>
      match verifyKey cfgKey hdr with
      | some r => (r, [])
      | none => parseHandler fileUrl w.fetch w.pdf
  | Request.postOcr hdr upload =>
      match verifyKey cfgKey hdr with
      | some r => (r, [])
      | none =>
          match upload with
          | none => ocrHandler none w.pdf w.ocr
          | some u =>
              if MAX_FILE_SIZE < u.size then
                (jsonResp 400 [("error", Json.str "File too large (max 10MB)")], [])
              else
                ocrHandler (some ⟨u.mimetype⟩) w.pdf w.ocr

/-- C1: for a multipart upload to `POST /api/ocr`, a declared content type
of `application/pdf` runs PDF text extraction, one starting with `image/`
runs OCR, any other declared content type yields 400 with body
`{error: "Unsupported file type. Upload a PDF or image."}`, and a missing
`file` field yields 400 `{error: "No file uploaded"}` (with no
collaborator invoked). -/
theorem c1_ocr_upload_dispatch (mPdf mImg mOther : String)
    (pdfRes ocrRes : ExtractOutcome)
    (hPdf : mPdf = "application/pdf")
    (hImg : startsWithStr mImg "image/" = true)
    (hO1 : mOther ≠ "application/pdf")
    (hO2 : startsWithStr mOther "image/" = false) :
    ocrHandler none pdfRes ocrRes
      = (jsonResp 400 [("error", Json.str "No file uploaded")], []) ∧
    (ocrHandler (some ⟨mPdf⟩) pdfRes ocrRes).2 = [Eff.pdfCall] ∧
    (ocrHandler (some ⟨mImg⟩) pdfRes ocrRes).2 = [Eff.ocrCall] ∧
    ocrHandler (some ⟨mOther⟩) pdfRes ocrRes
      = (jsonResp 400
          [("error", Json.str "Unsupported file type. Upload a PDF or image.")], []) := by
  have hne : mImg ≠ "application/pdf" := by
    intro he
    subst he
    exact absurd hImg (by decide)
  refine ⟨rfl, ?_, ?_, ?_⟩
  · subst hPdf
    cases pdfRes <;> rfl
  · cases ocrRes <;> simp [ocrHandler, hne, hImg]
  · simp [ocrHandler, hO1, hO2]

/-- C1 witness: the dispatch theorem applied at the concrete content
types `application/pdf`, `image/png` and `text/plain`. -/
theorem c1_ocr_upload_dispatch_witness :
    ocrHandler none (Except.ok none) (Except.ok none)
      = (jsonResp 400 [("error", Json.str "No file uploaded")], []) ∧
    (ocrHandler (some ⟨"application/pdf"⟩) (Except.ok none) (Except.ok none)).2
      = [Eff.pdfCall] ∧
    (ocrHandler (some ⟨"image/png"⟩) (Except.ok none) (Except.ok none)).2
      = [Eff.ocrCall] ∧
    ocrHandler (some ⟨"text/plain"⟩) (Except.ok none) (Except.ok none)
      = (jsonResp 400
          [("error", Json.str "Unsupported file type. Upload a PDF or image.")], []) :=
  c1_ocr_upload_dispatch "application/pdf" "image/png" "text/plain"
    (Except.ok none) (Except.ok none) rfl (by decide) (by decide) (by decide)

/-- C2: a `POST /parse` request whose body lacks `file_url` or carries it
as the empty string answers 400 with exactly
`{error: "Missing file_url"}`, and the collaborator trace is empty:
neither the fetch nor the PDF extraction is invoked, whatever their
outcomes would have been. -/
theorem c2_parse_missing_file_url (fetchRes : FetchOutcome)
    (pdfRes : ExtractOutcome) :
    parseHandler none fetchRes pdfRes
      = (jsonResp 400 [("error", Json.str "Missing file_url")], []) ∧
    parseHandler (some "") fetchRes pdfRes
      = (jsonResp 400 [("error", Json.str "Missing file_url")], []) :=
  ⟨rfl, rfl⟩

/-- C3: a `POST /parse` request with a non-empty `file_url` whose fetch
completes with a non-2xx status answers 502 with body
`{error: "Failed to fetch PDF (<status>)"}`; PDF extraction is not
attempted, and at status 404 the error message contains `404`. -/
theorem c3_parse_fetch_non2xx (u : String) (st : Nat) (pdfRes : ExtractOutcome)
    (hu : u.isEmpty = false) (hst : st < 200 ∨ 300 ≤ st) :
    parseHandler (some u) (Except.ok ⟨st⟩) pdfRes
      = (jsonResp 502
          [("error", Json.str ("Failed to fetch PDF (" ++ toString st ++ ")"))],
         [Eff.fetchCall]) ∧
    Eff.pdfCall ∉ (parseHandler (some u) (Except.ok ⟨st⟩) pdfRes).2 ∧
    (st = 404 →
      "Failed to fetch PDF (" ++ toString st ++ ")"
        = "Failed to fetch PDF (" ++ "404" ++ ")") := by
  have hok : FetchResp.isOk ⟨st⟩ = false := by
    simp only [FetchResp.isOk, decide_eq_false_iff_not]
    omega
  have h1 : parseHandler (some u) (Except.ok ⟨st⟩) pdfRes
      = (jsonResp 502
          [("error", Json.str ("Failed to fetch PDF (" ++ toString st ++ ")"))],
         [Eff.fetchCall]) := by
    simp [parseHandler, fileUrlMissing, hu, hok]
  refine ⟨h1, ?_, ?_⟩
  · rw [h1]
    simp
  · intro h404
    subst h404
    rfl

/-- C3 witness: fetching a URL that answers 404. -/
theorem c3_parse_fetch_non2xx_witness :
    parseHandler (some "http://example.com/a.pdf") (Except.ok ⟨404⟩) (Except.ok none)
      = (jsonResp 502
          [("error", Json.str ("Failed to fetch PDF (" ++ toString 404 ++ ")"))],
         [Eff.fetchCall]) ∧
    Eff.pdfCall
      ∉ (parseHandler (some "http://example.com/a.pdf") (Except.ok ⟨404⟩)
          (Except.ok none)).2 ∧
    (404 = 404 →
      "Failed to fetch PDF (" ++ toString 404 ++ ")"
        = "Failed to fetch PDF (" ++ "404" ++ ")") :=
  c3_parse_fetch_non2xx "http://example.com/a.pdf" 404 (Except.ok none)
    (by decide) (by decide)

/-- C4: a `POST /parse` request with a non-empty `file_url` whose fetch is
2xx and whose PDF extraction succeeds answers 200 with body
`{extracted_text: t}`, where `t` is the extractor text trimmed of leading
and trailing whitespace, and the empty string when the extractor yields no
text field. -/
theorem c4_parse_success (u : String) (st : Nat) (t : Option String)
    (hu : u.isEmpty = false) (hst : 200 ≤ st ∧ st < 300) :
    parseHandler (some u) (Except.ok ⟨st⟩) (Except.ok t)
      = (jsonResp 200
          [("extracted_text",
            Json.str (match t with | some s => jsTrim s | none => ""))],
         [Eff.fetchCall, Eff.pdfCall]) := by
  have hok : FetchResp.isOk ⟨st⟩ = true := by
    simp only [FetchResp.isOk, decide_eq_true_eq]
    omega
  cases t <;> simp [parseHandler, fileUrlMissing, hu, hok, trimmedText, jsTrim]

/-- C4 witness: a 200 fetch whose extractor yields text with surrounding
whitespace. -/
theorem c4_parse_success_witness :
    parseHandler (some "http://example.com/a.pdf") (Except.ok ⟨200⟩)
        (Except.ok (some " hello world\n"))
      = (jsonResp 200 [("extracted_text", Json.str (jsTrim " hello world\n"))],
         [Eff.fetchCall, Eff.pdfCall]) :=
  c4_parse_success "http://example.com/a.pdf" 200 (some " hello world\n")
    (by decide) (by decide)

/-- C5: an accepted upload to `POST /api/ocr` whose extraction or OCR
succeeds answers 200 with `{success: true, text, fileType}` where
`fileType` is the upload's declared content type; in particular a PDF
upload gets `fileType = "application/pdf"` and `success = true`. -/
theorem c5_ocr_upload_success (mImg : String) (tp ti : Option String)
    (pdfRes ocrRes : ExtractOutcome)
    (hImg : startsWithStr mImg "image/" = true) :
    ocrHandler (some ⟨"application/pdf"⟩) (Except.ok tp) ocrRes
      = (jsonResp 200 [("success", Json.bool true),
                       ("text", Json.str (trimmedText tp)),
                       ("fileType", Json.str "application/pdf")], [Eff.pdfCall]) ∧
    ocrHandler (some ⟨mImg⟩) pdfRes (Except.ok ti)
      = (jsonResp 200 [("success", Json.bool true),
                       ("text", Json.str (trimmedText ti)),
                       ("fileType", Json.str mImg)], [Eff.ocrCall]) := by
  have hne : mImg ≠ "application/pdf" := by
    intro he
    subst he
    exact absurd hImg (by decide)
  exact ⟨rfl, by simp [ocrHandler, hne, hImg]⟩

/-- C5 witness: a PDF upload and an `image/png` upload, both successful. -/
theorem c5_ocr_upload_success_witness :
    ocrHandler (some ⟨"application/pdf"⟩) (Except.ok (some "doc"))
        (Except.ok none)
      = (jsonResp 200 [("success", Json.bool true),
                       ("text", Json.str (trimmedText (some "doc"))),
                       ("fileType", Json.str "application/pdf")], [Eff.pdfCall]) ∧
    ocrHandler (some ⟨"image/png"⟩) (Except.ok (some "doc"))
        (Except.ok (some "scan"))
      = (jsonResp 200 [("success", Json.bool true),
                       ("text", Json.str (trimmedText (some "scan"))),
                       ("fileType", Json.str "image/png")], [Eff.ocrCall]) :=
  c5_ocr_upload_success "image/png" (some "doc") (some "scan")
    (Except.ok (some "doc")) (Except.ok (some "scan")) (by decide)

/-- C6: when a collaborator throws, the handler catches it and answers
500: `/parse` with exactly `{error: "Failed to parse document"}` whatever
the underlying failure, `/api/ocr` with
`{error: "Failed to process file", message: m}` where `m` is the
underlying failure's message — so `/api/ocr` is the endpoint whose 500
body carries the underlying message. -/
theorem c6_collaborator_throw_500 (u : String) (st : Nat)
    (m1 m2 m3 mImg : String) (pdfRes ocrRes : ExtractOutcome)
    (hu : u.isEmpty = false) (hst : 200 ≤ st ∧ st < 300)
    (hImg : startsWithStr mImg "image/" = true) :
    parseHandler (some u) (Except.error ()) pdfRes
      = (jsonResp 500 [("error", Json.str "Failed to parse document")],
         [Eff.fetchCall]) ∧
    parseHandler (some u) (Except.ok ⟨st⟩) (Except.error m1)
      = (jsonResp 500 [("error", Json.str "Failed to parse document")],
         [Eff.fetchCall, Eff.pdfCall]) ∧
    ocrHandler (some ⟨"application/pdf"⟩) (Except.error m2) ocrRes
      = (jsonResp 500 [("error", Json.str "Failed to process file"),
                       ("message", Json.str m2)], [Eff.pdfCall]) ∧
    ocrHandler (some ⟨mImg⟩) pdfRes (Except.error m3)
      = (jsonResp 500 [("error", Json.str "Failed to process file"),
                       ("message", Json.str m3)], [Eff.ocrCall]) := by
  have hok : FetchResp.isOk ⟨st⟩ = true := by
    simp only [FetchResp.isOk, decide_eq_true_eq]
    omega
  have hne : mImg ≠ "application/pdf" := by
    intro he
    subst he
    exact absurd hImg (by decide)
  refine ⟨?_, ?_, rfl, ?_⟩
  · simp [parseHandler, fileUrlMissing, hu]
  · simp [parseHandler, fileUrlMissing, hu, hok]
  · simp [ocrHandler, hne, hImg]

/-- C6 witness: a fetch that throws, a PDF extractor that throws on both
endpoints, and an OCR engine that throws on an `image/png` upload. -/
theorem c6_collaborator_throw_500_witness :
    parseHandler (some "http://example.com/a.pdf") (Except.error ())
        (Except.ok none)
      = (jsonResp 500 [("error", Json.str "Failed to parse document")],
         [Eff.fetchCall]) ∧
    parseHandler (some "http://example.com/a.pdf") (Except.ok ⟨200⟩)
        (Except.error "bad xref")
      = (jsonResp 500 [("error", Json.str "Failed to parse document")],
         [Eff.fetchCall, Eff.pdfCall]) ∧
    ocrHandler (some ⟨"application/pdf"⟩) (Except.error "bad header")
        (Except.ok none)
      = (jsonResp 500 [("error", Json.str "Failed to process file"),
                       ("message", Json.str "bad header")], [Eff.pdfCall]) ∧
    ocrHandler (some ⟨"image/png"⟩) (Except.ok none)
        (Except.error "worker died")
      = (jsonResp 500 [("error", Json.str "Failed to process file"),
                       ("message", Json.str "worker died")], [Eff.ocrCall]) :=
  c6_collaborator_throw_500 "http://example.com/a.pdf" 200
    "bad xref" "bad header" "worker died" "image/png"
    (Except.ok none) (Except.ok none) (by decide) (by decide) (by decide)

/-- C7: an upload to `POST /api/ocr` larger than
`MAX_FILE_SIZE = 10 * 1024 * 1024` bytes that passes the key guard is
answered 400 `{error: "File too large (max 10MB)"}` by the multer error
path, for every declared content type and every collaborator outcome, and
with an empty collaborator trace — the route handler never runs. -/
theorem c7_upload_too_large (cfg hdr : Option String) (u : UploadReq)
    (w : World) (hpass : verifyKey cfg hdr = none)
    (hsize : MAX_FILE_SIZE < u.size) :
    app cfg (Request.postOcr hdr (some u)) w
      = (jsonResp 400 [("error", Json.str "File too large (max 10MB)")], []) := by
  simp [app, hpass, hsize]

/-- C7 witness: an `application/pdf` upload of `10 * 1024 * 1024 + 1`
bytes with no key configured. -/
theorem c7_upload_too_large_witness :
    app none (Request.postOcr none (some ⟨"application/pdf", 10485761⟩))
        ⟨Except.ok ⟨200⟩, Except.ok none, Except.ok none⟩
      = (jsonResp 400 [("error", Json.str "File too large (max 10MB)")], []) :=
  c7_upload_too_large none none ⟨"application/pdf", 10485761⟩
    ⟨Except.ok ⟨200⟩, Except.ok none, Except.ok none⟩ rfl (by decide)

/-- C8: the key guard covers both POST routes and not the health routes.
With no key configured the guard always passes. With a (non-empty) key
configured, an absent or wrong `x-api-key` header gets 401
`{error: "Unauthorized"}` on both POST routes; the correct header lets
the request through to the handler (for `/api/ocr`, processing is the
same as with the guard disabled); the health routes answer 200 with the
static body regardless. -/
theorem c8_api_key_guard (hdr : Option String) (k : String)
    (fileUrl : Option String) (up : Option UploadReq) (w : World)
    (hk : k.isEmpty = false) (hwrong : hdr ≠ some k) :
    verifyKey none hdr = none ∧
    app (some k) (Request.postParse hdr fileUrl) w
      = (jsonResp 401 [("error", Json.str "Unauthorized")], []) ∧
    app (some k) (Request.postOcr hdr up) w
      = (jsonResp 401 [("error", Json.str "Unauthorized")], []) ∧
    app (some k) (Request.postParse (some k) fileUrl) w
      = parseHandler fileUrl w.fetch w.pdf ∧
    app (some k) (Request.postOcr (some k) up) w
      = app none (Request.postOcr none up) w ∧
    app (some k) Request.getRoot w = (jsonResp 200 healthFields, []) ∧
    app (some k) Request.getHealthz w = (jsonResp 200 healthFields, []) := by
  have hguard : verifyKey (some k) hdr
      = some (jsonResp 401 [("error", Json.str "Unauthorized")]) := by
    cases hdr with
    | none => simp [verifyKey, hk]
    | some h =>
        have hne : h ≠ k := fun he => hwrong (by rw [he])
        simp [verifyKey, hk, hne]
  have hpass : verifyKey (some k) (some k) = none := by
    simp [verifyKey, hk]
  refine ⟨rfl, ?_, ?_, ?_, ?_, rfl, rfl⟩
  · simp [app, hguard]
  · simp [app, hguard]
  · simp [app, hpass]
  · simp [app, hpass, verifyKey]

/-- C8 witness: key `secret` configured, header absent. -/
theorem c8_api_key_guard_witness :
    verifyKey none none = none ∧
    app (some "secret") (Request.postParse none none)
        ⟨Except.ok ⟨200⟩, Except.ok none, Except.ok none⟩
      = (jsonResp 401 [("error", Json.str "Unauthorized")], []) ∧
    app (some "secret") (Request.postOcr none none)
        ⟨Except.ok ⟨200⟩, Except.ok none, Except.ok none⟩
      = (jsonResp 401 [("error", Json.str "Unauthorized")], []) ∧
    app (some "secret") (Request.postParse (some "secret") none)
        ⟨Except.ok ⟨200⟩, Except.ok none, Except.ok none⟩
      = parseHandler none
          (World.fetch ⟨Except.ok ⟨200⟩, Except.ok none, Except.ok none⟩)
          (World.pdf ⟨Except.ok ⟨200⟩, Except.ok none, Except.ok none⟩) ∧
    app (some "secret") (Request.postOcr (some "secret") none)
        ⟨Except.ok ⟨200⟩, Except.ok none, Except.ok none⟩
      = app none (Request.postOcr none none)
          ⟨Except.ok ⟨200⟩, Except.ok none, Except.ok none⟩ ∧
    app (some "secret") Request.getRoot
        ⟨Except.ok ⟨200⟩, Except.ok none, Except.ok none⟩
      = (jsonResp 200 healthFields, []) ∧
    app (some "secret") Request.getHealthz
        ⟨Except.ok ⟨200⟩, Except.ok none, Except.ok none⟩
      = (jsonResp 200 healthFields, []) :=
  c8_api_key_guard none "secret" none none
    ⟨Except.ok ⟨200⟩, Except.ok none, Except.ok none⟩ (by decide) (by decide)

/-- C9: `GET /` and `GET /healthz` always answer 200 with the static
service descriptor, whose fields include `ok: true`, with an empty
collaborator trace and no key check, whatever key is configured. -/
theorem c9_health_endpoints (cfg : Option String) (w : World) :
    app cfg Request.getRoot w = (jsonResp 200 healthFields, []) ∧
    app cfg Request.getHealthz w = (jsonResp 200 healthFields, []) ∧
    ("ok", Json.bool true) ∈ healthFields :=
  ⟨rfl, rfl, by simp [healthFields]⟩

/-- C10: the PDF branch of `POST /api/ocr` is selected only by exact,
case-sensitive equality with `application/pdf` — `APPLICATION/PDF` and
`application/pdf; charset=binary` fall through, do not start with the
lowercase `image/` either, and are rejected 400 as unsupported, as is
`Image/png`; the exact strings `application/pdf` and `image/png` select
the PDF and OCR branches. -/
theorem c10_case_sensitive_dispatch (pdfRes ocrRes : ExtractOutcome) :
    ocrHandler (some ⟨"APPLICATION/PDF"⟩) pdfRes ocrRes
      = (jsonResp 400
          [("error", Json.str "Unsupported file type. Upload a PDF or image.")], []) ∧
    ocrHandler (some ⟨"application/pdf; charset=binary"⟩) pdfRes ocrRes
      = (jsonResp 400
          [("error", Json.str "Unsupported file type. Upload a PDF or image.")], []) ∧
    ocrHandler (some ⟨"Image/png"⟩) pdfRes ocrRes
      = (jsonResp 400
          [("error", Json.str "Unsupported file type. Upload a PDF or image.")], []) ∧
    (ocrHandler (some ⟨"application/pdf"⟩) pdfRes ocrRes).2 = [Eff.pdfCall] ∧
    (ocrHandler (some ⟨"image/png"⟩) pdfRes ocrRes).2 = [Eff.ocrCall] := by
  refine ⟨rfl, rfl, rfl, ?_, ?_⟩
  · cases pdfRes <;> rfl
  · cases ocrRes <;> rfl
